import Mathlib

/-!
# Verification of the housing_prediction scoring core

Shallow embedding of the investment-scoring subsystem:
* `src/unnamed/part_009` (shared scoring library): `DEFAULT_WEIGHTS`,
  `computeWeightedScore`, `robustScale`, `calculateQuantiles`,
  `scoreToQuantile`, `normalizeWeights`;
* `src/api/src/routes/scores.ts`: `calculateWeightedScore`, the inline
  weight parsing/normalization of `GET /scores/:areaId`, and the id
  handling of `GET /scores/compare`;
* `src/frontend/src/lib/api.ts`: `calculateWeightedScore`.

Numbers are modelled as exact rationals (`ℚ`).  JavaScript idioms are
modelled explicitly:
* `x || 0` on an already numeric (non-NaN) value is `jsOr0` — `0` is
  falsy and replaced, everything else is kept; a parse yielding `NaN`
  is modelled as `Option.none` upstream;
* `Math.round x` is `⌊x + 1/2⌋` (JavaScript rounds halves toward `+∞`);
* `Math.floor (n * p)` for a list length `n` and a percentile `p ≥ 0`
  is `⌊(n : ℚ) * p⌋₊`;
* `array.sort((a, b) => a - b)` is `List.insertionSort (· ≤ ·)` — a
  stable ascending comparator sort and insertion sort produce the same
  list of values (the unique sorted rearrangement of the multiset);
* the split-and-trimmed id list of the compare route is taken as input,
  since only its length and truncation are at issue.
-/

/-- JavaScript `x || 0` applied to an already numeric (non-NaN) value:
`0` is falsy and replaced by `0`, everything else is kept. -/
def jsOr0 (x : ℚ) : ℚ := if x = 0 then 0 else x

/-- JavaScript `Math.round` on a finite value: round half toward `+∞`. -/
def jsRound (x : ℚ) : ℤ := ⌊x + 1/2⌋

/-- `Math.round (x * 10) / 10`: round to one decimal place, as all three
weighted-score functions do. -/
def round1 (x : ℚ) : ℚ := (jsRound (x * 10) : ℚ) / 10

/-- `Math.floor (n * p)` for a list length `n` and percentile `p ≥ 0`:
the truncating percentile index used by `robustScale` and
`calculateQuantiles` in `src/unnamed/part_009`. -/
def pctIndex (n : ℕ) (p : ℚ) : ℕ := ⌊(n : ℚ) * p⌋₊

/-- The `ScoringWeights` interface of `src/unnamed/part_009` (the same
five-component shape as `ScoreDetails` and the sub-score records of
`src/api/src/routes/scores.ts`, where the last two fields are spelled
`accessibility`/`returns`).  `return` is a Lean keyword, so the fifth
field is `ret`. -/
structure ScoringWeights where
  growth : ℚ
  supply : ℚ
  tension : ℚ
  access : ℚ
  ret : ℚ
  deriving DecidableEq

/-- `Object.values(w).reduce((sum, weight) => sum + weight, 0)`. -/
def sumWeights (w : ScoringWeights) : ℚ :=
  w.growth + w.supply + w.tension + w.access + w.ret

/-- `DEFAULT_WEIGHTS` of `src/unnamed/part_009` (also `DEFAULT_WEIGHTS`
of `src/api/src/routes/scores.ts`): `{0.25, 0.20, 0.20, 0.20, 0.15}`. -/
def DEFAULT_WEIGHTS : ScoringWeights :=
  { growth := 25/100, supply := 20/100, tension := 20/100
    access := 20/100, ret := 15/100 }

/-- `normalizeWeights` of `src/unnamed/part_009` lines 147–159: sum the
five components; if the sum is exactly `0` (the JavaScript test is
`sum === 0`) return `DEFAULT_WEIGHTS`, otherwise divide each component
by the sum. -/
def normalizeWeights (weights : ScoringWeights) : ScoringWeights :=
  let sum := sumWeights weights
  if sum = 0 then DEFAULT_WEIGHTS
  else
    { growth := weights.growth / sum
      supply := weights.supply / sum
      tension := weights.tension / sum
      access := weights.access / sum
      ret := weights.ret / sum }

/-- `computeWeightedScore` of `src/unnamed/part_009` lines 71–90: divide
the weights by their sum when that sum is positive (otherwise keep them
as given), then take the `|| 0`-guarded dot product with the sub-scores
and round to one decimal. -/
def computeWeightedScore (subscores : ScoringWeights)
    (weights : ScoringWeights) : ℚ :=
  let totalWeight := sumWeights weights
  let normalizedWeights :=
    if totalWeight > 0 then
      { growth := weights.growth / totalWeight
        supply := weights.supply / totalWeight
        tension := weights.tension / totalWeight
        access := weights.access / totalWeight
        ret := weights.ret / totalWeight : ScoringWeights }
    else weights
  let weightedSum :=
    jsOr0 subscores.growth * jsOr0 normalizedWeights.growth +
    jsOr0 subscores.supply * jsOr0 normalizedWeights.supply +
    jsOr0 subscores.tension * jsOr0 normalizedWeights.tension +
    jsOr0 subscores.access * jsOr0 normalizedWeights.access +
    jsOr0 subscores.ret * jsOr0 normalizedWeights.ret
  round1 weightedSum

namespace ScoresRoutes

/-- `calculateWeightedScore` of `src/api/src/routes/scores.ts` lines
16–26: `|| 0`-guarded scores times weights, rounded to one decimal. -/
def calculateWeightedScore (scores : ScoringWeights)
    (weights : ScoringWeights) : ℚ :=
  let total :=
    jsOr0 scores.growth * weights.growth +
    jsOr0 scores.supply * weights.supply +
    jsOr0 scores.tension * weights.tension +
    jsOr0 scores.access * weights.access +
    jsOr0 scores.ret * weights.ret
  round1 total

/-- The five optional weight overrides of `GET /scores/:areaId`
(`src/api/src/routes/scores.ts` lines 35–41): each query parameter is
either absent/unparseable (`parseFloat` yields `NaN`, modelled `none`)
or a parsed number (`some q`). -/
structure WeightOverrides where
  growth : Option ℚ
  supply : Option ℚ
  tension : Option ℚ
  access : Option ℚ
  ret : Option ℚ
  deriving DecidableEq

/-- `parseFloat(c.req.query(k) || '') || DEFAULT_WEIGHTS[k]`: an absent
or unparseable parameter (`NaN`, falsy) and a parsed `0` (falsy) fall
back to the default component; every other parsed value — negative ones
included — is kept. -/
def resolveOverride (o : Option ℚ) (d : ℚ) : ℚ :=
  match o with
  | none => d
  | some q => if q = 0 then d else q

/-- The `customWeights` object built by `GET /scores/:areaId`
(`src/api/src/routes/scores.ts` lines 35–41). -/
def resolveCustomWeights (o : WeightOverrides) : ScoringWeights :=
  { growth := resolveOverride o.growth DEFAULT_WEIGHTS.growth
    supply := resolveOverride o.supply DEFAULT_WEIGHTS.supply
    tension := resolveOverride o.tension DEFAULT_WEIGHTS.tension
    access := resolveOverride o.access DEFAULT_WEIGHTS.access
    ret := resolveOverride o.ret DEFAULT_WEIGHTS.ret }

/-- The inline normalization of `GET /scores/:areaId`
(`src/api/src/routes/scores.ts` lines 43–49): divide each component by
the total when the total is positive, otherwise leave the vector
unchanged. -/
def routeNormalize (w : ScoringWeights) : ScoringWeights :=
  let totalWeight := sumWeights w
  if totalWeight > 0 then
    { growth := w.growth / totalWeight
      supply := w.supply / totalWeight
      tension := w.tension / totalWeight
      access := w.access / totalWeight
      ret := w.ret / totalWeight }
  else w

/-- The id handling of `GET /scores/compare`
(`src/api/src/routes/scores.ts` lines 148–169).  `none` models an
absent or empty `areas` query parameter (both falsy in
`if (!areaIds)`); `some ids` carries the result of
`areaIds.split(',').map(id => id.trim())`, which the route truncates
with `.slice(0, 5)` before querying. -/
def compareRouteIds (ids : Option (List String)) :
    Except String (List String) :=
  match ids with
  | none => Except.error "MISSING_AREA_IDS"
  | some ids =>
    let idsArray := ids.take 5
    if idsArray = [] then Except.error "INVALID_AREA_IDS"
    else Except.ok idsArray

end ScoresRoutes

namespace ApiLib

/-- `calculateWeightedScore` of `src/frontend/src/lib/api.ts` lines
235–248: plain scores-times-weights dot product, rounded to one
decimal. -/
def calculateWeightedScore (scores : ScoringWeights)
    (weights : ScoringWeights) : ℚ :=
  let total :=
    scores.growth * weights.growth +
    scores.supply * weights.supply +
    scores.tension * weights.tension +
    scores.access * weights.access +
    scores.ret * weights.ret
  round1 total

end ApiLib

/-- `robustScale` of `src/unnamed/part_009` lines 93–114: empty
reference list gives the neutral score `50`; otherwise look up the
median at index `Math.floor (n / 2)` and the quartiles at
`Math.floor (n * 0.25)` and `Math.floor (n * 0.75)` of the ascending
sort; a zero IQR gives `50`; otherwise scale
`((newValue - median) / iqr) * 25 + 50` and clamp to `[0, 100]` via
`Math.max (0, Math.min (100, scaled))`. -/
def robustScale (values : List ℚ) (newValue : ℚ) : ℚ :=
  if values = [] then 50
  else
    let sorted := values.insertionSort (· ≤ ·)
    let median := sorted.getD (pctIndex sorted.length (1/2)) 0
    let q1 := sorted.getD (pctIndex sorted.length (25/100)) 0
    let q3 := sorted.getD (pctIndex sorted.length (75/100)) 0
    let iqr := q3 - q1
    if iqr = 0 then 50
    else
      let scaled := ((newValue - median) / iqr) * 25 + 50
      max 0 (min 100 scaled)

/-- The `{ [key: number]: number }` threshold table produced by
`calculateQuantiles` and consumed by `scoreToQuantile`, with the five
bucket entries `1..5` as fields `t1..t5`. -/
structure QuantileThresholds where
  t1 : ℚ
  t2 : ℚ
  t3 : ℚ
  t4 : ℚ
  t5 : ℚ
  deriving DecidableEq

/-- `calculateQuantiles` of `src/unnamed/part_009` lines 117–129: an
empty score list gives the fixed table `{1:0, 2:25, 3:50, 4:75, 5:100}`;
otherwise the bucket cutoffs are the sorted values at the truncating
indices `Math.floor (n * p)` for `p = 0.2, 0.4, 0.6, 0.8, 0.95`. -/
def calculateQuantiles (scores : List ℚ) : QuantileThresholds :=
  if scores = [] then { t1 := 0, t2 := 25, t3 := 50, t4 := 75, t5 := 100 }
  else
    let sorted := scores.insertionSort (· ≤ ·)
    { t1 := sorted.getD (pctIndex sorted.length (20/100)) 0
      t2 := sorted.getD (pctIndex sorted.length (40/100)) 0
      t3 := sorted.getD (pctIndex sorted.length (60/100)) 0
      t4 := sorted.getD (pctIndex sorted.length (80/100)) 0
      t5 := sorted.getD (pctIndex sorted.length (95/100)) 0 }

/-- `scoreToQuantile` of `src/unnamed/part_009` lines 132–138: the
highest bucket from 5 down to 2 whose threshold the score meets or
exceeds, else bucket 1. -/
def scoreToQuantile (score : ℚ)
    (quantileThresholds : QuantileThresholds) : ℕ :=
  if score ≥ quantileThresholds.t5 then 5
  else if score ≥ quantileThresholds.t4 then 4
  else if score ≥ quantileThresholds.t3 then 3
  else if score ≥ quantileThresholds.t2 then 2
  else 1

/-- Modelled from the spec: "round to 1 decimal place using standard
round-half-away-from-zero" (§4.3).  Integer rounding half away from
zero, to be compared with the source's `Math.round`. -/
def roundHalfAwayFromZero (x : ℚ) : ℤ :=
  if 0 ≤ x then ⌊x + 1/2⌋ else -⌊-x + 1/2⌋

/-- Modelled from the spec: the Weighted Aggregator contract of §4.3,
`total = Σ scores[k] * weights[k]` rounded to one decimal place half
away from zero. -/
def specWeightedTotal (scores : ScoringWeights)
    (weights : ScoringWeights) : ℚ :=
  (roundHalfAwayFromZero
    ((scores.growth * weights.growth +
      scores.supply * weights.supply +
      scores.tension * weights.tension +
      scores.access * weights.access +
      scores.ret * weights.ret) * 10) : ℚ) / 10

/-! ## Helper lemmas -/

theorem jsOr0_eq (x : ℚ) : jsOr0 x = x := by
  unfold jsOr0; split <;> simp_all

theorem pctIndex_div (n a b : ℕ) :
    pctIndex n ((a : ℚ) / (b : ℚ)) = n * a / b := by
  unfold pctIndex
  rw [show ((n : ℚ) * ((a : ℚ) / (b : ℚ))) = ((n * a : ℕ) : ℚ) / ((b : ℕ) : ℚ) by
    push_cast; ring]
  rw [Nat.floor_div_nat, Nat.floor_natCast]

theorem jsRound_eq (x : ℚ) (n : ℤ) (h1 : (n : ℚ) ≤ x + 1/2)
    (h2 : x + 1/2 < n + 1) : jsRound x = n :=
  Int.floor_eq_iff.mpr ⟨h1, h2⟩

theorem pctIndex_5_half : pctIndex 5 (1/2) = 2 := by
  rw [show ((1:ℚ)/2) = ((1:ℕ):ℚ)/((2:ℕ):ℚ) by norm_num, pctIndex_div]

theorem pctIndex_5_q1 : pctIndex 5 (25/100) = 1 := by
  rw [show ((25:ℚ)/100) = ((25:ℕ):ℚ)/((100:ℕ):ℚ) by norm_num, pctIndex_div]

theorem pctIndex_5_q3 : pctIndex 5 (75/100) = 3 := by
  rw [show ((75:ℚ)/100) = ((75:ℕ):ℚ)/((100:ℕ):ℚ) by norm_num, pctIndex_div]

theorem sumWeights_normalizeWeights (w : ScoringWeights)
    (hne : sumWeights w ≠ 0) : sumWeights (normalizeWeights w) = 1 := by
  simp only [normalizeWeights]
  rw [if_neg hne]
  simp only [sumWeights]
  rw [div_add_div_same, div_add_div_same, div_add_div_same, div_add_div_same]
  exact div_self hne

theorem sumWeights_routeNormalize (w : ScoringWeights)
    (hpos : sumWeights w > 0) :
    sumWeights (ScoresRoutes.routeNormalize w) = 1 := by
  simp only [ScoresRoutes.routeNormalize]
  rw [if_pos hpos]
  simp only [sumWeights]
  rw [div_add_div_same, div_add_div_same, div_add_div_same, div_add_div_same]
  exact div_self (ne_of_gt hpos)

/-! ## Claims -/

/-- **C1**: for every input weight vector whose five components are all
non-negative and not all zero, both `normalizeWeights` and the inline
normalization of the single-area score route return a vector whose five
components sum to 1 within tolerance `1e-9` (here: exactly, hence within
tolerance). -/
theorem C1_weight_normalization_sums_to_one (w : ScoringWeights)
    (hg : 0 ≤ w.growth) (hs : 0 ≤ w.supply) (ht : 0 ≤ w.tension)
    (ha : 0 ≤ w.access) (hr : 0 ≤ w.ret)
    (hnz : w ≠ { growth := 0, supply := 0, tension := 0, access := 0, ret := 0 }) :
    |sumWeights (normalizeWeights w) - 1| ≤ 1/1000000000 ∧
    |sumWeights (ScoresRoutes.routeNormalize w) - 1| ≤ 1/1000000000 := by
  have hne : sumWeights w ≠ 0 := by
    intro h0
    apply hnz
    obtain ⟨g, s, t, a, r⟩ := w
    simp only [sumWeights] at h0 hg hs ht ha hr
    simp only [ScoringWeights.mk.injEq]
    exact ⟨by linarith, by linarith, by linarith, by linarith, by linarith⟩
  have hpos : 0 < sumWeights w := by
    rcases lt_or_eq_of_le (show (0:ℚ) ≤ sumWeights w by unfold sumWeights; positivity)
      with h | h
    · exact h
    · exact absurd h.symm hne
  constructor
  · rw [sumWeights_normalizeWeights w hne]; norm_num
  · rw [sumWeights_routeNormalize w hpos]; norm_num

theorem C1_weight_normalization_sums_to_one_witness :
    |sumWeights (normalizeWeights ⟨1, 1, 1, 1, 1⟩) - 1| ≤ 1/1000000000 ∧
    |sumWeights (ScoresRoutes.routeNormalize ⟨1, 1, 1, 1, 1⟩) - 1| ≤ 1/1000000000 :=
  C1_weight_normalization_sums_to_one ⟨1, 1, 1, 1, 1⟩
    (by norm_num) (by norm_num) (by norm_num) (by norm_num) (by norm_num)
    (by intro h; exact absurd (congrArg ScoringWeights.growth h) (by norm_num))

/-- **C5 counterexample**: the claim says every weight vector with sum
`≤ 0` maps to the default vector, but `normalizeWeights` only tests
`sum === 0`: the vector `{-1, 0, 0, 0, 0}` has sum `-1 ≤ 0` yet is
divided by `-1`, giving `{1, 0, 0, 0, 0} ≠ DEFAULT_WEIGHTS`. -/
theorem C5_counterexample :
    sumWeights ⟨-1, 0, 0, 0, 0⟩ ≤ 0 ∧
    normalizeWeights ⟨-1, 0, 0, 0, 0⟩ ≠ DEFAULT_WEIGHTS := by
  refine ⟨by norm_num [sumWeights], fun h => ?_⟩
  have hg := congrArg ScoringWeights.growth h
  norm_num [normalizeWeights, sumWeights, DEFAULT_WEIGHTS] at hg

/-- **C5 (amended)**: for every input weight vector whose five
components sum to exactly `0` (in particular the all-zero vector),
`normalizeWeights` returns exactly the default vector
`{0.25, 0.20, 0.20, 0.20, 0.15}`. -/
theorem C5_zero_sum_returns_default (w : ScoringWeights)
    (h : sumWeights w = 0) : normalizeWeights w = DEFAULT_WEIGHTS := by
  simp only [normalizeWeights]
  rw [if_pos h]

theorem C5_zero_sum_returns_default_witness :
    normalizeWeights ⟨0, 0, 0, 0, 0⟩ = DEFAULT_WEIGHTS :=
  C5_zero_sum_returns_default ⟨0, 0, 0, 0, 0⟩ (by norm_num [sumWeights])

/-- **C8**: classifying two totals `a > b` against the same threshold
table gives `bucket b ≤ bucket a`; and the classifier assigns the
highest bucket (checked from 5 down to 2) whose threshold the score
meets or exceeds, with fallback bucket 1. -/
theorem C8_quantile_ordering :
    (∀ (q : QuantileThresholds) (a b : ℚ), b < a →
      scoreToQuantile b q ≤ scoreToQuantile a q) ∧
    (∀ (s : ℚ) (q : QuantileThresholds),
      (q.t5 ≤ s → scoreToQuantile s q = 5) ∧
      (¬ q.t5 ≤ s → q.t4 ≤ s → scoreToQuantile s q = 4) ∧
      (¬ q.t5 ≤ s → ¬ q.t4 ≤ s → q.t3 ≤ s → scoreToQuantile s q = 3) ∧
      (¬ q.t5 ≤ s → ¬ q.t4 ≤ s → ¬ q.t3 ≤ s → q.t2 ≤ s →
        scoreToQuantile s q = 2) ∧
      (¬ q.t5 ≤ s → ¬ q.t4 ≤ s → ¬ q.t3 ≤ s → ¬ q.t2 ≤ s →
        scoreToQuantile s q = 1)) := by
  constructor
  · intro q a b hab
    unfold scoreToQuantile
    split_ifs <;> first | omega | (exfalso; simp_all; linarith)
  · intro s q
    refine ⟨?_, ?_, ?_, ?_, ?_⟩ <;> intros <;>
      (unfold scoreToQuantile; split_ifs <;> simp_all)

theorem C8_quantile_ordering_witness :
    scoreToQuantile 10 ⟨0, 25, 50, 75, 100⟩ ≤
      scoreToQuantile 90 ⟨0, 25, 50, 75, 100⟩ :=
  C8_quantile_ordering.1 ⟨0, 25, 50, 75, 100⟩ 90 10 (by norm_num)

/-- **C10**: the classifier always returns a bucket in `{1,…,5}`, and
its result never depends on the table's bucket-1 entry: tables agreeing
on buckets 2–5 classify every score identically. -/
theorem C10_classifier_range_and_t1_unused
    (score : ℚ) (q q' : QuantileThresholds) :
    (1 ≤ scoreToQuantile score q ∧ scoreToQuantile score q ≤ 5) ∧
    (q.t2 = q'.t2 → q.t3 = q'.t3 → q.t4 = q'.t4 → q.t5 = q'.t5 →
      scoreToQuantile score q = scoreToQuantile score q') := by
  constructor
  · unfold scoreToQuantile; split_ifs <;> omega
  · intro h2 h3 h4 h5
    unfold scoreToQuantile
    rw [h2, h3, h4, h5]

theorem C10_classifier_range_and_t1_unused_witness :
    (1 ≤ scoreToQuantile 30 ⟨0, 25, 50, 75, 100⟩ ∧
      scoreToQuantile 30 ⟨0, 25, 50, 75, 100⟩ ≤ 5) ∧
    scoreToQuantile 30 ⟨0, 25, 50, 75, 100⟩ =
      scoreToQuantile 30 ⟨999, 25, 50, 75, 100⟩ :=
  ⟨(C10_classifier_range_and_t1_unused 30 ⟨0, 25, 50, 75, 100⟩
      ⟨999, 25, 50, 75, 100⟩).1,
   (C10_classifier_range_and_t1_unused 30 ⟨0, 25, 50, 75, 100⟩
      ⟨999, 25, 50, 75, 100⟩).2 rfl rfl rfl rfl⟩

theorem roundHalfAwayFromZero_of_nonneg (x : ℚ) (h : 0 ≤ x) :
    roundHalfAwayFromZero x = jsRound x := by
  unfold roundHalfAwayFromZero jsRound
  rw [if_pos h]

theorem computeWeightedScore_of_sum_one (subscores weights : ScoringWeights)
    (h : sumWeights weights = 1) :
    computeWeightedScore subscores weights =
      round1 (subscores.growth * weights.growth +
        subscores.supply * weights.supply +
        subscores.tension * weights.tension +
        subscores.access * weights.access +
        subscores.ret * weights.ret) := by
  have hpos : sumWeights weights > 0 := by rw [h]; norm_num
  simp only [computeWeightedScore, jsOr0_eq]
  rw [if_pos hpos, h]
  simp only [div_one]

theorem serverWeightedScore_eq (scores weights : ScoringWeights) :
    ScoresRoutes.calculateWeightedScore scores weights =
      round1 (scores.growth * weights.growth +
        scores.supply * weights.supply +
        scores.tension * weights.tension +
        scores.access * weights.access +
        scores.ret * weights.ret) := by
  simp only [ScoresRoutes.calculateWeightedScore, jsOr0_eq]

/-- **C2**: for every sub-score record and every weight vector already
normalized to sum to 1, the server-side weighted-total function (in the
API routes and the frontend API library) and the client-side
`computeWeightedScore` compute identical totals. -/
theorem C2_server_client_identical (scores weights : ScoringWeights)
    (hsum : sumWeights weights = 1) :
    ScoresRoutes.calculateWeightedScore scores weights =
      computeWeightedScore scores weights ∧
    ApiLib.calculateWeightedScore scores weights =
      computeWeightedScore scores weights := by
  rw [computeWeightedScore_of_sum_one scores weights hsum,
    serverWeightedScore_eq]
  exact ⟨rfl, rfl⟩

theorem C2_server_client_identical_witness :
    ScoresRoutes.calculateWeightedScore ⟨80, 60, 90, 70, 50⟩ DEFAULT_WEIGHTS =
      computeWeightedScore ⟨80, 60, 90, 70, 50⟩ DEFAULT_WEIGHTS ∧
    ApiLib.calculateWeightedScore ⟨80, 60, 90, 70, 50⟩ DEFAULT_WEIGHTS =
      computeWeightedScore ⟨80, 60, 90, 70, 50⟩ DEFAULT_WEIGHTS :=
  C2_server_client_identical ⟨80, 60, 90, 70, 50⟩ DEFAULT_WEIGHTS
    (by norm_num [sumWeights, DEFAULT_WEIGHTS])

/-- **C3**: for every record of five non-negative sub-scores and every
normalized (non-negative, sum-1) weight vector, the aggregators return
`Σ scores[k] * weights[k]` rounded to one decimal half away from zero
(for non-negative totals JavaScript's `Math.round` coincides with
round-half-away-from-zero); in particular sub-scores
`{80, 60, 90, 70, 50}` with the default weights give `71.5`. -/
theorem C3_aggregation_formula :
    (∀ scores weights : ScoringWeights,
      0 ≤ scores.growth → 0 ≤ scores.supply → 0 ≤ scores.tension →
      0 ≤ scores.access → 0 ≤ scores.ret →
      0 ≤ weights.growth → 0 ≤ weights.supply → 0 ≤ weights.tension →
      0 ≤ weights.access → 0 ≤ weights.ret →
      sumWeights weights = 1 →
      computeWeightedScore scores weights = specWeightedTotal scores weights ∧
      ScoresRoutes.calculateWeightedScore scores weights =
        specWeightedTotal scores weights) ∧
    computeWeightedScore ⟨80, 60, 90, 70, 50⟩ DEFAULT_WEIGHTS = 715/10 ∧
    ScoresRoutes.calculateWeightedScore ⟨80, 60, 90, 70, 50⟩ DEFAULT_WEIGHTS
      = 715/10 := by
  have hgen : ∀ scores weights : ScoringWeights,
      0 ≤ scores.growth → 0 ≤ scores.supply → 0 ≤ scores.tension →
      0 ≤ scores.access → 0 ≤ scores.ret →
      0 ≤ weights.growth → 0 ≤ weights.supply → 0 ≤ weights.tension →
      0 ≤ weights.access → 0 ≤ weights.ret →
      sumWeights weights = 1 →
      computeWeightedScore scores weights = specWeightedTotal scores weights ∧
      ScoresRoutes.calculateWeightedScore scores weights =
        specWeightedTotal scores weights := by
    intro scores weights h1 h2 h3 h4 h5 h6 h7 h8 h9 h10 hsum
    have hdot : 0 ≤ scores.growth * weights.growth +
        scores.supply * weights.supply + scores.tension * weights.tension +
        scores.access * weights.access + scores.ret * weights.ret := by
      have m1 := mul_nonneg h1 h6
      have m2 := mul_nonneg h2 h7
      have m3 := mul_nonneg h3 h8
      have m4 := mul_nonneg h4 h9
      have m5 := mul_nonneg h5 h10
      linarith
    have hspec : specWeightedTotal scores weights =
        round1 (scores.growth * weights.growth +
          scores.supply * weights.supply +
          scores.tension * weights.tension +
          scores.access * weights.access +
          scores.ret * weights.ret) := by
      simp only [specWeightedTotal, round1]
      rw [roundHalfAwayFromZero_of_nonneg _ (mul_nonneg hdot (by norm_num))]
    rw [hspec, computeWeightedScore_of_sum_one scores weights hsum,
      serverWeightedScore_eq]
    exact ⟨rfl, rfl⟩
  have h := hgen ⟨80, 60, 90, 70, 50⟩ DEFAULT_WEIGHTS
    (by norm_num) (by norm_num) (by norm_num) (by norm_num) (by norm_num)
    (by norm_num [DEFAULT_WEIGHTS]) (by norm_num [DEFAULT_WEIGHTS])
    (by norm_num [DEFAULT_WEIGHTS]) (by norm_num [DEFAULT_WEIGHTS])
    (by norm_num [DEFAULT_WEIGHTS])
    (by norm_num [sumWeights, DEFAULT_WEIGHTS])
  have hspecval : specWeightedTotal ⟨80, 60, 90, 70, 50⟩ DEFAULT_WEIGHTS
      = 715/10 := by
    simp only [specWeightedTotal, DEFAULT_WEIGHTS]
    norm_num
    rw [show roundHalfAwayFromZero 715 = 715 by
      unfold roundHalfAwayFromZero
      rw [if_pos (by norm_num)]
      exact Int.floor_eq_iff.mpr (by norm_num)]
    norm_num
  exact ⟨hgen, h.1.trans hspecval, h.2.trans hspecval⟩

theorem C3_aggregation_formula_witness :
    computeWeightedScore ⟨80, 60, 90, 70, 50⟩ DEFAULT_WEIGHTS =
      specWeightedTotal ⟨80, 60, 90, 70, 50⟩ DEFAULT_WEIGHTS :=
  (C3_aggregation_formula.1 ⟨80, 60, 90, 70, 50⟩ DEFAULT_WEIGHTS
    (by norm_num) (by norm_num) (by norm_num) (by norm_num) (by norm_num)
    (by norm_num [DEFAULT_WEIGHTS]) (by norm_num [DEFAULT_WEIGHTS])
    (by norm_num [DEFAULT_WEIGHTS]) (by norm_num [DEFAULT_WEIGHTS])
    (by norm_num [DEFAULT_WEIGHTS])
    (by norm_num [sumWeights, DEFAULT_WEIGHTS])).1

theorem pctIndex_one_of_lt_one (p : ℚ) (hp : p < 1) : pctIndex 1 p = 0 := by
  unfold pctIndex
  rw [Nat.cast_one, one_mul]
  exact Nat.floor_eq_zero.mpr hp

/-- **C4**: `robustScale` returns `50` on an empty reference list and on
every single-element list (zero IQR); for a non-empty list with the
median/Q1/Q3 looked up at the truncating indices `⌊n·0.5⌋`, `⌊n·0.25⌋`,
`⌊n·0.75⌋` of the ascending sort, it returns `50` when `Q3 - Q1 = 0`
and `((newValue - median) / IQR) * 25 + 50` clamped to `[0, 100]`
otherwise; and `robustScale [100, 200, 300, 400, 500] 300 = 50`. -/
theorem C4_robustScale_spec :
    (∀ v : ℚ, robustScale [] v = 50) ∧
    (∀ x v : ℚ, robustScale [x] v = 50) ∧
    (∀ (values : List ℚ) (v : ℚ), values ≠ [] →
      ((values.insertionSort (· ≤ ·)).getD
          (pctIndex (values.insertionSort (· ≤ ·)).length (75/100)) 0 -
        (values.insertionSort (· ≤ ·)).getD
          (pctIndex (values.insertionSort (· ≤ ·)).length (25/100)) 0 = 0 →
        robustScale values v = 50) ∧
      ((values.insertionSort (· ≤ ·)).getD
          (pctIndex (values.insertionSort (· ≤ ·)).length (75/100)) 0 -
        (values.insertionSort (· ≤ ·)).getD
          (pctIndex (values.insertionSort (· ≤ ·)).length (25/100)) 0 ≠ 0 →
        robustScale values v =
          max 0 (min 100 ((v -
              (values.insertionSort (· ≤ ·)).getD
                (pctIndex (values.insertionSort (· ≤ ·)).length (1/2)) 0) /
            ((values.insertionSort (· ≤ ·)).getD
                (pctIndex (values.insertionSort (· ≤ ·)).length (75/100)) 0 -
              (values.insertionSort (· ≤ ·)).getD
                (pctIndex (values.insertionSort (· ≤ ·)).length (25/100)) 0) *
            25 + 50)))) ∧
    robustScale [100, 200, 300, 400, 500] 300 = 50 := by
  refine ⟨fun v => by simp [robustScale], fun x v => ?_, fun values v hne => ?_, ?_⟩
  · simp [robustScale, List.insertionSort, List.orderedInsert,
      pctIndex_one_of_lt_one (25/100) (by norm_num),
      pctIndex_one_of_lt_one (75/100) (by norm_num)]
  · simp only [robustScale]
    rw [if_neg hne]
    constructor
    · intro h0; rw [if_pos h0]
    · intro hne0; rw [if_neg hne0]
  · norm_num [robustScale, List.insertionSort, List.orderedInsert,
      pctIndex_5_half, pctIndex_5_q1, pctIndex_5_q3]

theorem C4_robustScale_spec_witness : robustScale [(42 : ℚ)] 7 = 50 :=
  (C4_robustScale_spec.2.2.1 [42] 7 (by simp)).1
    (by norm_num [List.insertionSort, List.orderedInsert, pctIndex_one_of_lt_one])

/-- **C6 counterexample**: the claim says a non-positive (zero *or
negative*) weight override is replaced by the default component, but
`parseFloat(x) || default` only replaces falsy values: the parsed
override `-1` is truthy and kept, so the resolved growth weight is `-1`,
not the default `0.25`. -/
theorem C6_counterexample :
    (ScoresRoutes.resolveCustomWeights
      ⟨some (-1), none, none, none, none⟩).growth = -1 ∧
    (-1 : ℚ) < 0 ∧
    (ScoresRoutes.resolveCustomWeights
      ⟨some (-1), none, none, none, none⟩).growth ≠ DEFAULT_WEIGHTS.growth := by
  norm_num [ScoresRoutes.resolveCustomWeights, ScoresRoutes.resolveOverride,
    DEFAULT_WEIGHTS]

/-- **C6 (amended)**: in the single-area score request each of the five
weight overrides is resolved component-wise and the resolution is total
(never raises): an override that is absent, unparseable, or exactly
zero is replaced by the corresponding default component, while every
other parsed value — negative ones included — is kept. -/
theorem C6_override_resolution (ov : ScoresRoutes.WeightOverrides) :
    ((ov.growth = none ∨ ov.growth = some 0) →
      (ScoresRoutes.resolveCustomWeights ov).growth = DEFAULT_WEIGHTS.growth) ∧
    (∀ q : ℚ, q ≠ 0 → ov.growth = some q →
      (ScoresRoutes.resolveCustomWeights ov).growth = q) ∧
    ((ov.supply = none ∨ ov.supply = some 0) →
      (ScoresRoutes.resolveCustomWeights ov).supply = DEFAULT_WEIGHTS.supply) ∧
    (∀ q : ℚ, q ≠ 0 → ov.supply = some q →
      (ScoresRoutes.resolveCustomWeights ov).supply = q) ∧
    ((ov.tension = none ∨ ov.tension = some 0) →
      (ScoresRoutes.resolveCustomWeights ov).tension = DEFAULT_WEIGHTS.tension) ∧
    (∀ q : ℚ, q ≠ 0 → ov.tension = some q →
      (ScoresRoutes.resolveCustomWeights ov).tension = q) ∧
    ((ov.access = none ∨ ov.access = some 0) →
      (ScoresRoutes.resolveCustomWeights ov).access = DEFAULT_WEIGHTS.access) ∧
    (∀ q : ℚ, q ≠ 0 → ov.access = some q →
      (ScoresRoutes.resolveCustomWeights ov).access = q) ∧
    ((ov.ret = none ∨ ov.ret = some 0) →
      (ScoresRoutes.resolveCustomWeights ov).ret = DEFAULT_WEIGHTS.ret) ∧
    (∀ q : ℚ, q ≠ 0 → ov.ret = some q →
      (ScoresRoutes.resolveCustomWeights ov).ret = q) := by
  refine ⟨fun h => ?_, fun q hq h => ?_, fun h => ?_, fun q hq h => ?_,
    fun h => ?_, fun q hq h => ?_, fun h => ?_, fun q hq h => ?_,
    fun h => ?_, fun q hq h => ?_⟩ <;>
    first
    | (rcases h with h | h <;>
        simp [ScoresRoutes.resolveCustomWeights, ScoresRoutes.resolveOverride, h])
    | simp [ScoresRoutes.resolveCustomWeights, ScoresRoutes.resolveOverride, h, hq]

theorem C6_override_resolution_witness :
    (ScoresRoutes.resolveCustomWeights
      ⟨none, some 0, some 2, none, some 3⟩).growth = DEFAULT_WEIGHTS.growth ∧
    (ScoresRoutes.resolveCustomWeights
      ⟨none, some 0, some 2, none, some 3⟩).supply = DEFAULT_WEIGHTS.supply ∧
    (ScoresRoutes.resolveCustomWeights
      ⟨none, some 0, some 2, none, some 3⟩).tension = 2 :=
  ⟨(C6_override_resolution ⟨none, some 0, some 2, none, some 3⟩).1 (Or.inl rfl),
   (C6_override_resolution ⟨none, some 0, some 2, none, some 3⟩).2.2.1 (Or.inr rfl),
   (C6_override_resolution ⟨none, some 0, some 2, none, some 3⟩).2.2.2.2.2.1
     2 (by norm_num) rfl⟩

/-- **C7**: for a non-empty score list `calculateQuantiles` returns the
cutoffs for buckets 1–5 at the 20/40/60/80/95th percentiles of the
ascending sort using the truncating `⌊n·p⌋` index method, and for the
empty list it returns exactly `{1:0, 2:25, 3:50, 4:75, 5:100}`. -/
theorem C7_calculateQuantiles_spec :
    calculateQuantiles [] = { t1 := 0, t2 := 25, t3 := 50, t4 := 75, t5 := 100 } ∧
    ∀ scores : List ℚ, scores ≠ [] →
      calculateQuantiles scores =
        { t1 := (scores.insertionSort (· ≤ ·)).getD
            (pctIndex (scores.insertionSort (· ≤ ·)).length (20/100)) 0
          t2 := (scores.insertionSort (· ≤ ·)).getD
            (pctIndex (scores.insertionSort (· ≤ ·)).length (40/100)) 0
          t3 := (scores.insertionSort (· ≤ ·)).getD
            (pctIndex (scores.insertionSort (· ≤ ·)).length (60/100)) 0
          t4 := (scores.insertionSort (· ≤ ·)).getD
            (pctIndex (scores.insertionSort (· ≤ ·)).length (80/100)) 0
          t5 := (scores.insertionSort (· ≤ ·)).getD
            (pctIndex (scores.insertionSort (· ≤ ·)).length (95/100)) 0 } := by
  refine ⟨by simp [calculateQuantiles], fun scores hne => ?_⟩
  simp only [calculateQuantiles]
  rw [if_neg hne]

theorem C7_calculateQuantiles_spec_witness :
    calculateQuantiles [(7 : ℚ)] = { t1 := 7, t2 := 7, t3 := 7, t4 := 7, t5 := 7 } :=
  (C7_calculateQuantiles_spec.2 [7] (by simp)).trans (by
    norm_num [List.insertionSort, List.orderedInsert, pctIndex_one_of_lt_one])

/-- **C9 counterexample**: the claim says a comparison request with more
than 5 requested area ids is rejected before computation, but the route
silently truncates with `.slice(0, 5)`: six requested ids produce a
successful partial comparison over the first five. -/
theorem C9_counterexample :
    ScoresRoutes.compareRouteIds (some ["a", "b", "c", "d", "e", "f"]) =
      Except.ok ["a", "b", "c", "d", "e"] ∧
    (["a", "b", "c", "d", "e", "f"] : List String).length > 5 :=
  ⟨rfl, by simp⟩

/-- **C9 (amended)**: a comparison request whose requested id list has
more than 5 elements is *not* rejected: the list is truncated to its
first 5 elements and the comparison proceeds over that proper subset. -/
theorem C9_truncates_to_five (ids : List String) (h : 5 < ids.length) :
    ScoresRoutes.compareRouteIds (some ids) = Except.ok (ids.take 5) ∧
    (ids.take 5).length = 5 ∧ ids.take 5 ≠ ids := by
  have hlen : (ids.take 5).length = 5 := by
    rw [List.length_take]; omega
  have hne : ids.take 5 ≠ [] := by
    intro h0; rw [h0] at hlen; simp at hlen
  refine ⟨?_, hlen, fun heq => ?_⟩
  · simp only [ScoresRoutes.compareRouteIds]
    rw [if_neg hne]
  · have hlen2 := congrArg List.length heq
    rw [hlen] at hlen2
    omega

theorem C9_truncates_to_five_witness :
    ScoresRoutes.compareRouteIds (some ["a", "b", "c", "d", "e", "f"]) =
      Except.ok ((["a", "b", "c", "d", "e", "f"] : List String).take 5) ∧
    ((["a", "b", "c", "d", "e", "f"] : List String).take 5).length = 5 ∧
    (["a", "b", "c", "d", "e", "f"] : List String).take 5 ≠
      ["a", "b", "c", "d", "e", "f"] :=
  C9_truncates_to_five ["a", "b", "c", "d", "e", "f"] (by simp)
